import Mathlib

/-!
Shallow embedding of the multi-buffered frame orchestrator
(`src/Engine/src/Renderer.cpp`, class `Engine::Renderer`).

Device-level Vulkan calls are modelled by their observable results: each
`vk*` call that can fail takes its `VkResult` from an explicit environment
record, and each externally visible action is logged as an `Event`.
`float` quantities of the source (`m_timestampPeriod`, `m_gpuTimeMs`) are
modelled exactly over `Rat`.
-/

namespace Engine

/-- Result codes (`VkResult`) as the renderer distinguishes them. -/
inductive VkResult where
  | success
  | suboptimalKHR
  | errorOutOfDateKHR
  | otherError (code : Int)
deriving DecidableEq

/-- The image formats the renderer mentions (subset of `VkFormat`). -/
inductive VkFormat where
  | D32_SFLOAT
  | D32_SFLOAT_S8_UINT
  | D24_UNORM_S8_UINT
  | UNDEFINED
  | B8G8R8A8_SRGB
  | otherFormat (code : Nat)
deriving DecidableEq

inductive VkImageTiling where
  | LINEAR
  | OPTIMAL
deriving DecidableEq

/-- `VkFormatProperties`: feature bitmasks per tiling mode. -/
structure VkFormatProperties where
  linearTilingFeatures : Nat
  optimalTilingFeatures : Nat

structure VkExtent2D where
  width : Nat
  height : Nat
deriving DecidableEq

/-- `VK_FORMAT_FEATURE_DEPTH_STENCIL_ATTACHMENT_BIT` = 0x200. -/
def VK_FORMAT_FEATURE_DEPTH_STENCIL_ATTACHMENT_BIT : Nat := 512

/-- `findSupportedFormat` (Renderer.cpp lines 11-28): first candidate whose
queried properties contain all requested feature bits for the given tiling. -/
def findSupportedFormat (phys : VkFormat → VkFormatProperties)
    (candidates : List VkFormat) (tiling : VkImageTiling) (features : Nat) : VkFormat :=
  match candidates with
  | [] => VkFormat.UNDEFINED
  | format :: rest =>
    let props := phys format
    if tiling = VkImageTiling.LINEAR ∧ props.linearTilingFeatures &&& features = features then
      format
    else if tiling = VkImageTiling.OPTIMAL ∧ props.optimalTilingFeatures &&& features = features then
      format
    else
      findSupportedFormat phys rest tiling features

/-- `findDepthFormat` (Renderer.cpp lines 30-42): prefer D32, then the packed
depth/stencil formats, optimal tiling, depth-stencil attachment feature. -/
def findDepthFormat (phys : VkFormat → VkFormatProperties) : VkFormat :=
  findSupportedFormat phys
    [VkFormat.D32_SFLOAT, VkFormat.D32_SFLOAT_S8_UINT, VkFormat.D24_UNORM_S8_UINT]
    VkImageTiling.OPTIMAL VK_FORMAT_FEATURE_DEPTH_STENCIL_ATTACHMENT_BIT

/-- The display-surface / image-chain collaborator (`SwapChain`), at its
interface boundary: current color format, current extent, presentable
image views (as abstract nonzero handles). -/
structure SwapChain where
  imageFormat : VkFormat
  extent : VkExtent2D
  imageViews : List Nat
deriving DecidableEq

/-- The device/queue collaborator, reduced to the queries the renderer makes:
per-format properties and the timestamp limits. -/
structure PhysicalDevice where
  formatProps : VkFormat → VkFormatProperties
  timestampComputeAndGraphics : Bool
  timestampPeriod : Rat

/-- Results of the fallible `vk*` creation calls, supplied by the
environment.  One result per call site; the source checks each call of a
loop individually, and a uniform per-site result is enough for every claim
(failure of any iteration throws, exactly as a failing first iteration). -/
structure DeviceEnv where
  createImage2DRes : VkResult := VkResult.success
  createImageView2DRes : VkResult := VkResult.success
  createRenderPassRes : VkResult := VkResult.success
  createFramebufferRes : VkResult := VkResult.success
  createSemaphoreRes : VkResult := VkResult.success
  createFenceRes : VkResult := VkResult.success
  createCommandPoolRes : VkResult := VkResult.success
  allocateCommandBuffersRes : VkResult := VkResult.success
  createQueryPoolRes : VkResult := VkResult.success
deriving DecidableEq

/-- Modelled from the spec: `FrameContext` (header
`Engine/Structs/FrameContextStruct.h` is not under src/).  Per §3 "Frame
Slot": image-acquired signal, render-finished signal, in-flight fence,
command-recording context; plus the `frameIndex` field Renderer.cpp writes
at line 481.  `std::vector::resize` value-initializes, so the defaults are
null handles / zero.  The fence is `none` when not created, `some b` when
created with signaled-state `b`. -/
structure FrameContext where
  imageAcquiredSemaphore : Bool := false
  renderFinishedSemaphore : Bool := false
  inFlightFence : Option Bool := none
  commandPool : Bool := false
  commandBuffer : Bool := false
  frameIndex : Nat := 0
deriving DecidableEq

def emptyFrame : FrameContext := {}

/-- Observable actions of the orchestrator, logged in program order. -/
inductive Event where
  | deviceWaitIdle
  | waitFence (slot : Nat)
  | acquireImage
  | swapchainRecreate (extent : VkExtent2D)
  | resetFence (slot : Nat)
  | submit (slot : Nat)
  | queryPoolResults (firstQuery : Nat)
  | present (imageIndex : Nat)
  | onCreate (m : Nat) (renderPass : Bool) (fbs : List Nat)
  | onResize (m : Nat) (extent : VkExtent2D)
  | onDestroy (m : Nat)
  | recordPass (m : Nat)
  | imguiRender
  | destroyFramebuffers
  | destroyDepthRes
  | destroyRenderPass
  | queryFormatExtent
  | createDepthRes
  | createRenderPass
  | createFbs
deriving DecidableEq

/-- The `Engine::Renderer` state (fields of Renderer.h lines 56-90).
Handles are modelled by existence flags or nonzero naturals; registered
modules by identifiers (`shared_ptr` nullability kept as `Option`).
`m_isInit` is the C++ field `m_initialized`. -/
structure Renderer where
  m_maxFrames : Nat := 2
  m_isInit : Bool := false
  m_mainRenderPass : Bool := false
  m_framebuffers : List Nat := []
  m_extent : VkExtent2D := ⟨0, 0⟩
  m_swapchainImageFormat : VkFormat := VkFormat.UNDEFINED
  m_depthFormat : VkFormat := VkFormat.UNDEFINED
  m_depthImages : List Nat := []
  m_depthMemories : List Nat := []
  m_depthImageViews : List Nat := []
  m_frames : List FrameContext := []
  m_currentFrame : Nat := 0
  m_passes : List (Option Nat) := []
  m_imguiRenderCallback : Bool := false
  m_timestampQueryPool : Bool := false
  m_timestampPeriod : Rat := 1
  m_gpuTimeMs : Rat := 0
  m_timestampsSupported : Bool := false
deriving DecidableEq

/-- The constructor (Renderer.cpp lines 52-67): caches the swapchain's
format and extent; every other field keeps its declared default. -/
def Renderer.construct (swapchain : SwapChain) (maxFramesInFlight : Nat) : Renderer :=
  { m_maxFrames := maxFramesInFlight
    m_swapchainImageFormat := swapchain.imageFormat
    m_extent := swapchain.extent }

/-- `destroyDepthResources` (lines 344-373): destroy every non-null view,
image and memory, then clear all three vectors. -/
def Renderer.destroyDepthResources (s : Renderer) : Renderer × List Event :=
  ({ s with m_depthImageViews := [], m_depthImages := [], m_depthMemories := [] },
   [Event.destroyDepthRes])

/-- `createDepthResources` (lines 300-342): destroy the old resources, probe
for a depth format (throw if none), then create one image + memory + view
per swapchain image view (throw on any creation failure).  Handles are
modelled as the nonzero naturals `1..n`. -/
def Renderer.createDepthResources (phys : PhysicalDevice) (sc : SwapChain)
    (dev : DeviceEnv) (s : Renderer) : Except String (Renderer × List Event) :=
  let d := Renderer.destroyDepthResources s
  let fmt := findDepthFormat phys.formatProps
  if fmt = VkFormat.UNDEFINED then
    .error "Renderer::createDepthResources - failed to find supported depth format"
  else
    let n := sc.imageViews.length
    if n ≠ 0 ∧ dev.createImage2DRes ≠ VkResult.success then
      .error "Renderer::createDepthResources - failed to create depth image"
    else if n ≠ 0 ∧ dev.createImageView2DRes ≠ VkResult.success then
      .error "Renderer::createDepthResources - failed to create depth image view"
    else
      .ok ({ d.1 with
               m_depthFormat := fmt
               m_depthImages := (List.range n).map (fun i => i + 1)
               m_depthMemories := (List.range n).map (fun i => i + 1)
               m_depthImageViews := (List.range n).map (fun i => i + 1) },
           d.2 ++ [Event.createDepthRes])

/-- `createMainRenderPass` (lines 202-268): lazily fill `m_depthFormat`,
then create the two-attachment render pass (throw on failure). -/
def Renderer.createMainRenderPass (phys : PhysicalDevice) (dev : DeviceEnv)
    (s : Renderer) : Except String (Renderer × List Event) :=
  let s1 := if s.m_depthFormat = VkFormat.UNDEFINED then
              { s with m_depthFormat := findDepthFormat phys.formatProps }
            else s
  if dev.createRenderPassRes ≠ VkResult.success then
    .error "Renderer::createMainRenderPass - failed to create render pass"
  else
    .ok ({ s1 with m_mainRenderPass := true }, [Event.createRenderPass])

/-- `createFramebuffers` (lines 270-298): resize `m_framebuffers` to the
swapchain image-view count, throw on a depth-view count mismatch, then
create one framebuffer per image view (throw on failure). -/
def Renderer.createFramebuffers (sc : SwapChain) (dev : DeviceEnv)
    (s : Renderer) : Except String (Renderer × List Event) :=
  let n := sc.imageViews.length
  if s.m_depthImageViews.length ≠ n then
    .error "Renderer::createFramebuffers - depth resources not initialized or size mismatch"
  else if n ≠ 0 ∧ dev.createFramebufferRes ≠ VkResult.success then
    .error "Renderer::createFramebuffers - failed to create framebuffer"
  else
    .ok ({ s with m_framebuffers := (List.range n).map (fun i => i + 1) }, [Event.createFbs])

/-- `createSyncObjects` (lines 418-443): two semaphores and one fence per
slot; fences are created already signaled (`VK_FENCE_CREATE_SIGNALED_BIT`,
line 426). -/
def Renderer.createSyncObjects (dev : DeviceEnv) (s : Renderer) :
    Except String (Renderer × List Event) :=
  if s.m_maxFrames ≠ 0 ∧ dev.createSemaphoreRes ≠ VkResult.success then
    .error "Renderer::createSyncObjects - failed to create semaphores"
  else if s.m_maxFrames ≠ 0 ∧ dev.createFenceRes ≠ VkResult.success then
    .error "Renderer::createSyncObjects - failed to create fence"
  else
    .ok ({ s with m_frames := s.m_frames.map (fun f =>
             { f with imageAcquiredSemaphore := true
                      renderFinishedSemaphore := true
                      inFlightFence := some true }) },
         [])

/-- `createCommandPoolsAndBuffers` (lines 445-473): one pool and one
primary buffer per slot. -/
def Renderer.createCommandPoolsAndBuffers (dev : DeviceEnv) (s : Renderer) :
    Except String (Renderer × List Event) :=
  if s.m_maxFrames ≠ 0 ∧ dev.createCommandPoolRes ≠ VkResult.success then
    .error "Renderer::createCommandPoolsAndBuffers - failed to create command pool"
  else if s.m_maxFrames ≠ 0 ∧ dev.allocateCommandBuffersRes ≠ VkResult.success then
    .error "Renderer::createCommandPoolsAndBuffers - failed to allocate command buffer"
  else
    .ok ({ s with m_frames := s.m_frames.map (fun f =>
             { f with commandPool := true, commandBuffer := true }) },
         [])

/-- `destroyTimestampQueryPool` (lines 699-707). -/
def Renderer.destroyTimestampQueryPool (s : Renderer) : Renderer :=
  { s with m_timestampQueryPool := false, m_timestampsSupported := false }

/-- `createTimestampQueryPool` (lines 668-697): if the device lacks
timestamp support, mark unsupported and return; otherwise cache the
nanoseconds-per-tick period and create a `2 * maxFrames` query pool,
degrading to unsupported (not throwing) if pool creation fails. -/
def Renderer.createTimestampQueryPool (phys : PhysicalDevice) (dev : DeviceEnv)
    (s : Renderer) : Renderer :=
  let s1 := Renderer.destroyTimestampQueryPool s
  if ¬ phys.timestampComputeAndGraphics then
    { s1 with m_timestampsSupported := false }
  else
    let s2 := { s1 with m_timestampPeriod := phys.timestampPeriod
                        m_timestampsSupported := true }
    if dev.createQueryPoolRes ≠ VkResult.success then
      { s2 with m_timestampsSupported := false, m_timestampQueryPool := false }
    else
      { s2 with m_timestampQueryPool := true }

/-- `std::vector::resize(n)`: keep the first `n` elements, value-initialize
any newly added ones. -/
def resizeFrames (fs : List FrameContext) (n : Nat) : List FrameContext :=
  if fs.length ≤ n then fs ++ List.replicate (n - fs.length) emptyFrame
  else fs.take n

/-- The `onCreate` notifications of a module list, in registration order,
skipping null entries (the `if (p)` guards of the source). -/
def onCreateEvents : List (Option Nat) → Bool → List Nat → List Event
  | [], _, _ => []
  | none :: ps, rp, fbs => onCreateEvents ps rp fbs
  | some m :: ps, rp, fbs => Event.onCreate m rp fbs :: onCreateEvents ps rp fbs

/-- The `onDestroy` notifications of a module list, in registration order. -/
def onDestroyEvents : List (Option Nat) → List Event
  | [] => []
  | none :: ps => onDestroyEvents ps
  | some m :: ps => Event.onDestroy m :: onDestroyEvents ps

/-- The `onResize`-then-`onCreate` notification pairs of a module list
(loop of lines 409-415). -/
def resizeCreateEvents : List (Option Nat) → VkExtent2D → Bool → List Nat → List Event
  | [], _, _, _ => []
  | none :: ps, e, rp, fbs => resizeCreateEvents ps e rp fbs
  | some m :: ps, e, rp, fbs =>
      Event.onResize m e :: Event.onCreate m rp fbs :: resizeCreateEvents ps e rp fbs

/-- The per-frame `record` calls of a module list (loop of lines 551-555). -/
def recordEvents : List (Option Nat) → List Event
  | [] => []
  | none :: ps => recordEvents ps
  | some m :: ps => Event.recordPass m :: recordEvents ps

/-- The shared body of the two `init` overloads (lines 96-117 and 125-146
are textually identical): resize the slot vector, re-query format and
extent from the swapchain, build depth → pass → framebuffers → sync →
command pools → query pool, then notify every registered module's
`onCreate` and set the initialization flag. -/
def Renderer.initCore (phys : PhysicalDevice) (sc : SwapChain) (dev : DeviceEnv)
    (s : Renderer) : Except String (Renderer × List Event) :=
  let s1 := { s with m_frames := resizeFrames s.m_frames s.m_maxFrames }
  let s2 := { s1 with m_swapchainImageFormat := sc.imageFormat, m_extent := sc.extent }
  match Renderer.createDepthResources phys sc dev s2 with
  | .error e => .error e
  | .ok (s3, t3) =>
  match Renderer.createMainRenderPass phys dev s3 with
  | .error e => .error e
  | .ok (s4, t4) =>
  match Renderer.createFramebuffers sc dev s4 with
  | .error e => .error e
  | .ok (s5, t5) =>
  match Renderer.createSyncObjects dev s5 with
  | .error e => .error e
  | .ok (s6, t6) =>
  match Renderer.createCommandPoolsAndBuffers dev s6 with
  | .error e => .error e
  | .ok (s7, t7) =>
  let s8 := Renderer.createTimestampQueryPool phys dev s7
  let t8 := onCreateEvents s8.m_passes s8.m_mainRenderPass s8.m_framebuffers
  .ok ({ s8 with m_isInit := true }, t3 ++ t4 ++ t5 ++ t6 ++ t7 ++ t8)

/-- `init()` (lines 120-147), the overload without an extent: a no-op when
already initialized. -/
def Renderer.init (phys : PhysicalDevice) (sc : SwapChain) (dev : DeviceEnv)
    (s : Renderer) : Except String (Renderer × List Event) :=
  if s.m_isInit then .ok (s, [])
  else Renderer.initCore phys sc dev s

/-- `init(VkExtent2D)` (lines 85-118): a no-op when already initialized;
a non-zero argument overwrites `m_extent` (lines 90-94) before the shared
body runs — which itself re-assigns `m_extent` from the swapchain
(line 101). -/
def Renderer.initWithExtent (phys : PhysicalDevice) (sc : SwapChain) (dev : DeviceEnv)
    (extent : VkExtent2D) (s : Renderer) : Except String (Renderer × List Event) :=
  if s.m_isInit then .ok (s, [])
  else
    let s0 := if 0 < extent.width ∧ 0 < extent.height then { s with m_extent := extent } else s
    Renderer.initCore phys sc dev s0

/-- `registerPass` (lines 190-200): ignore null, append, and when already
initialized immediately invoke the module's `onCreate` with the current
render pass and framebuffer set. -/
def Renderer.registerPass (pass : Option Nat) (s : Renderer) : Renderer × List Event :=
  match pass with
  | none => (s, [])
  | some m =>
    let s1 := { s with m_passes := s.m_passes ++ [some m] }
    if s1.m_isInit then
      (s1, [Event.onCreate m s1.m_mainRenderPass s1.m_framebuffers])
    else
      (s1, [])

/-- `recreateSwapchainDependent` (lines 375-416): idle the device, call
`onDestroy` on every module, destroy framebuffers / depth resources /
render pass, re-query format and extent from the (already recreated)
swapchain, rebuild depth → pass → framebuffers, then notify every module
`onResize` followed by `onCreate`. -/
def Renderer.recreateSwapchainDependent (phys : PhysicalDevice) (sc : SwapChain)
    (dev : DeviceEnv) (s : Renderer) : Except String (Renderer × List Event) :=
  let t0 := Event.deviceWaitIdle :: onDestroyEvents s.m_passes
  let s1 := { s with m_framebuffers := [] }
  let t1 := t0 ++ [Event.destroyFramebuffers]
  let d := Renderer.destroyDepthResources s1
  let t2 := t1 ++ d.2
  let s3 := if d.1.m_mainRenderPass then { d.1 with m_mainRenderPass := false } else d.1
  let t3 := if d.1.m_mainRenderPass then t2 ++ [Event.destroyRenderPass] else t2
  let s4 := { s3 with m_swapchainImageFormat := sc.imageFormat, m_extent := sc.extent }
  let t4 := t3 ++ [Event.queryFormatExtent]
  match Renderer.createDepthResources phys sc dev s4 with
  | .error e => .error e
  | .ok (s5, t5) =>
  match Renderer.createMainRenderPass phys dev s5 with
  | .error e => .error e
  | .ok (s6, t6) =>
  match Renderer.createFramebuffers sc dev s6 with
  | .error e => .error e
  | .ok (s7, t7) =>
    .ok (s7, t4 ++ t5 ++ t6 ++ t7 ++
          resizeCreateEvents s7.m_passes s7.m_extent s7.m_mainRenderPass s7.m_framebuffers)

/-- `cleanup` (lines 149-188): a no-op when not initialized; otherwise idle
the device, notify `onDestroy`, destroy the timestamp pool, command pools,
sync objects, framebuffers, depth resources and render pass, and clear
the initialization flag. -/
def Renderer.cleanup (s : Renderer) : Renderer × List Event :=
  if ¬ s.m_isInit then (s, [])
  else
    let t0 := Event.deviceWaitIdle :: onDestroyEvents s.m_passes
    let s1 := Renderer.destroyTimestampQueryPool s
    let s2 := { s1 with m_frames := s1.m_frames.map (fun (f : FrameContext) =>
                 { f with commandPool := false
                          commandBuffer := false
                          imageAcquiredSemaphore := false
                          renderFinishedSemaphore := false
                          inFlightFence := none }) }
    let s3 := { s2 with m_framebuffers := [] }
    let d := Renderer.destroyDepthResources s3
    let s5 := if d.1.m_mainRenderPass then { d.1 with m_mainRenderPass := false } else d.1
    ({ s5 with m_isInit := false }, t0 ++ [Event.destroyFramebuffers] ++ d.2)

/-- The per-call environment of `drawFrame`: fence-wait result, acquire
result and image index, the swapchain state after a `Recreate`, the device
environment for the rebuild path, and the timestamp read-back. -/
structure DrawEnv where
  fenceWaitResult : VkResult := VkResult.success
  acquireResult : VkResult := VkResult.success
  imageIndex : Nat := 0
  recreatedSwapChain : SwapChain := ⟨VkFormat.UNDEFINED, ⟨0, 0⟩, []⟩
  dev : DeviceEnv := {}
  queryResult : VkResult := VkResult.success
  timestampStart : Nat := 0
  timestampEnd : Nat := 0
deriving DecidableEq

/-- `drawFrame` (lines 475-631).  Stages in program order: initialization
guard; `frame.frameIndex = m_currentFrame`; fence wait (a successful
unbounded wait means the GPU signaled the slot fence, so its state becomes
`some true`); acquire; out-of-date → `Recreate` + rebuild + return without
resetting the fence; other non-success/non-suboptimal acquire → return
without resetting the fence; record (modules then optional ImGui);
fence reset + submit; timestamp harvest of the previous slot; present;
advance modulo the ring size. -/
def Renderer.drawFrame (phys : PhysicalDevice) (sc : SwapChain) (env : DrawEnv)
    (s : Renderer) : Except String (Renderer × List Event) :=
  if ¬ s.m_isInit then .ok (s, [])
  else
    let cur := s.m_currentFrame
    let f0 := s.m_frames.getD cur emptyFrame
    let s1 := { s with m_frames := s.m_frames.set cur { f0 with frameIndex := cur } }
    if env.fenceWaitResult ≠ VkResult.success then
      .ok (s1, [Event.waitFence cur])
    else
      let f1 := s1.m_frames.getD cur emptyFrame
      let s2 := { s1 with m_frames := s1.m_frames.set cur { f1 with inFlightFence := some true } }
      let t2 := [Event.waitFence cur, Event.acquireImage]
      if env.acquireResult = VkResult.errorOutOfDateKHR then
        match Renderer.recreateSwapchainDependent phys env.recreatedSwapChain env.dev s2 with
        | .error e => .error e
        | .ok (s3, t3) => .ok (s3, t2 ++ [Event.swapchainRecreate s2.m_extent] ++ t3)
      else if env.acquireResult ≠ VkResult.success ∧ env.acquireResult ≠ VkResult.suboptimalKHR then
        .ok (s2, t2)
      else
        let tRec := recordEvents s2.m_passes ++
          (if s2.m_imguiRenderCallback then [Event.imguiRender] else [])
        let f2 := s2.m_frames.getD cur emptyFrame
        let s5 := { s2 with m_frames := s2.m_frames.set cur { f2 with inFlightFence := some false } }
        let t5 := t2 ++ tRec ++ [Event.resetFence cur, Event.submit cur]
        let harvest :=
          if s5.m_timestampsSupported ∧ s5.m_timestampQueryPool ∧ 1 < s5.m_maxFrames then
            let prevFrame := (cur + s5.m_maxFrames - 1) % s5.m_maxFrames
            if env.queryResult = VkResult.success ∧ env.timestampStart < env.timestampEnd then
              ({ s5 with m_gpuTimeMs :=
                   ((env.timestampEnd - env.timestampStart : Nat) : Rat) *
                     s5.m_timestampPeriod / 1000000 },
               t5 ++ [Event.queryPoolResults (prevFrame * 2)])
            else (s5, t5 ++ [Event.queryPoolResults (prevFrame * 2)])
          else (s5, t5)
        .ok ({ harvest.1 with m_currentFrame := (cur + 1) % harvest.1.m_maxFrames },
             harvest.2 ++ [Event.present env.imageIndex])

/-- Iterated `drawFrame` over a list of per-call environments. -/
def Renderer.drawFrames (phys : PhysicalDevice) (sc : SwapChain) :
    List DrawEnv → Renderer → Except String (Renderer × List Event)
  | [], s => .ok (s, [])
  | env :: rest, s =>
    match Renderer.drawFrame phys sc env s with
    | .error e => .error e
    | .ok (s1, t1) =>
      match Renderer.drawFrames phys sc rest s1 with
      | .error e => .error e
      | .ok (s2, t2) => .ok (s2, t1 ++ t2)

instance {ε α : Type} [DecidableEq ε] [DecidableEq α] : DecidableEq (Except ε α) := fun x y =>
  match x, y with
  | .error a, .error b =>
      if h : a = b then .isTrue (h ▸ rfl) else .isFalse (fun hc => h (by injection hc))
  | .error _, .ok _ => .isFalse (fun hc => Except.noConfusion hc)
  | .ok _, .error _ => .isFalse (fun hc => Except.noConfusion hc)
  | .ok a, .ok b =>
      if h : a = b then .isTrue (h ▸ rfl) else .isFalse (fun hc => h (by injection hc))

/-! ### Concrete fixtures used by witnesses and counterexamples -/

/-- A device supporting every format and timestamps. -/
def physAll : PhysicalDevice :=
  { formatProps := fun _ => { linearTilingFeatures := 512, optimalTilingFeatures := 512 }
    timestampComputeAndGraphics := true
    timestampPeriod := 1 }

/-- A device supporting no format features and no timestamps. -/
def physNone : PhysicalDevice :=
  { formatProps := fun _ => { linearTilingFeatures := 0, optimalTilingFeatures := 0 }
    timestampComputeAndGraphics := false
    timestampPeriod := 1 }

/-- A three-image swapchain. -/
def scA : SwapChain :=
  { imageFormat := VkFormat.B8G8R8A8_SRGB, extent := ⟨640, 480⟩, imageViews := [1, 2, 3] }

def devOK : DeviceEnv := {}

/-- An all-success per-call draw environment. -/
def envOK : DrawEnv := { recreatedSwapChain := scA }

/-- A renderer with ring size 2, constructed and initialized against `scA`. -/
def rInit : Renderer :=
  match Renderer.init physAll scA devOK (Renderer.construct scA 2) with
  | .ok (s, _) => s
  | .error _ => Renderer.construct scA 2

/-! ### Helper lemmas -/

theorem aux_createDepthResources_ok {phys : PhysicalDevice} {sc : SwapChain}
    {dev : DeviceEnv} {s s2 : Renderer} {t : List Event}
    (h : Renderer.createDepthResources phys sc dev s = .ok (s2, t)) :
    s2 = { s with m_depthFormat := findDepthFormat phys.formatProps
                  m_depthImages := (List.range sc.imageViews.length).map (fun i => i + 1)
                  m_depthMemories := (List.range sc.imageViews.length).map (fun i => i + 1)
                  m_depthImageViews := (List.range sc.imageViews.length).map (fun i => i + 1) } ∧
    t = [Event.destroyDepthRes, Event.createDepthRes] ∧
    findDepthFormat phys.formatProps ≠ VkFormat.UNDEFINED := by
  simp only [Renderer.createDepthResources, Renderer.destroyDepthResources] at h
  split_ifs at h with h1 h2 h3
  simp only [Except.ok.injEq, Prod.mk.injEq] at h
  obtain ⟨hs, ht⟩ := h
  subst hs
  subst ht
  exact ⟨rfl, rfl, h1⟩

theorem aux_createMainRenderPass_ok {phys : PhysicalDevice} {dev : DeviceEnv}
    {s s2 : Renderer} {t : List Event}
    (h : Renderer.createMainRenderPass phys dev s = .ok (s2, t)) :
    s2 = (if s.m_depthFormat = VkFormat.UNDEFINED then
            { s with m_depthFormat := findDepthFormat phys.formatProps, m_mainRenderPass := true }
          else { s with m_mainRenderPass := true }) ∧
    t = [Event.createRenderPass] := by
  unfold Renderer.createMainRenderPass at h
  split_ifs at h with h1 h2 <;>
    simp only [Except.ok.injEq, Prod.mk.injEq] at h <;>
    simp [h1, ← h.1, h.2]

theorem aux_createFramebuffers_ok {sc : SwapChain} {dev : DeviceEnv}
    {s s2 : Renderer} {t : List Event}
    (h : Renderer.createFramebuffers sc dev s = .ok (s2, t)) :
    s2 = { s with m_framebuffers := (List.range sc.imageViews.length).map (fun i => i + 1) } ∧
    t = [Event.createFbs] := by
  simp only [Renderer.createFramebuffers] at h
  split_ifs at h with h1 h2
  simp only [Except.ok.injEq, Prod.mk.injEq] at h
  exact ⟨h.1.symm, h.2.symm⟩

theorem aux_createSyncObjects_ok {dev : DeviceEnv} {s s2 : Renderer} {t : List Event}
    (h : Renderer.createSyncObjects dev s = .ok (s2, t)) :
    s2 = { s with m_frames := s.m_frames.map (fun f =>
             { f with imageAcquiredSemaphore := true
                      renderFinishedSemaphore := true
                      inFlightFence := some true }) } ∧
    t = [] := by
  unfold Renderer.createSyncObjects at h
  split_ifs at h with h1 h2
  simp only [Except.ok.injEq, Prod.mk.injEq] at h
  exact ⟨h.1.symm, h.2.symm⟩

theorem aux_createCommandPools_ok {dev : DeviceEnv} {s s2 : Renderer} {t : List Event}
    (h : Renderer.createCommandPoolsAndBuffers dev s = .ok (s2, t)) :
    s2 = { s with m_frames := s.m_frames.map (fun f =>
             { f with commandPool := true, commandBuffer := true }) } ∧
    t = [] := by
  unfold Renderer.createCommandPoolsAndBuffers at h
  split_ifs at h with h1 h2
  simp only [Except.ok.injEq, Prod.mk.injEq] at h
  exact ⟨h.1.symm, h.2.symm⟩

theorem aux_queryPool_fields (phys : PhysicalDevice) (dev : DeviceEnv) (s : Renderer) :
    (Renderer.createTimestampQueryPool phys dev s).m_depthImages = s.m_depthImages ∧
    (Renderer.createTimestampQueryPool phys dev s).m_depthMemories = s.m_depthMemories ∧
    (Renderer.createTimestampQueryPool phys dev s).m_depthImageViews = s.m_depthImageViews ∧
    (Renderer.createTimestampQueryPool phys dev s).m_passes = s.m_passes ∧
    (Renderer.createTimestampQueryPool phys dev s).m_extent = s.m_extent ∧
    (Renderer.createTimestampQueryPool phys dev s).m_mainRenderPass = s.m_mainRenderPass ∧
    (Renderer.createTimestampQueryPool phys dev s).m_framebuffers = s.m_framebuffers ∧
    (Renderer.createTimestampQueryPool phys dev s).m_isInit = s.m_isInit ∧
    (Renderer.createTimestampQueryPool phys dev s).m_frames = s.m_frames ∧
    (Renderer.createTimestampQueryPool phys dev s).m_currentFrame = s.m_currentFrame ∧
    (Renderer.createTimestampQueryPool phys dev s).m_maxFrames = s.m_maxFrames := by
  unfold Renderer.createTimestampQueryPool Renderer.destroyTimestampQueryPool
  split_ifs <;> simp

/-- Characterization of a successful `initCore`: the fields the claims
read, and the full event trace. -/
theorem aux_initCore_ok {phys : PhysicalDevice} {sc : SwapChain} {dev : DeviceEnv}
    {s s2 : Renderer} {t : List Event}
    (h : Renderer.initCore phys sc dev s = .ok (s2, t)) :
    s2.m_depthImages.length = sc.imageViews.length ∧
    s2.m_depthMemories.length = sc.imageViews.length ∧
    s2.m_depthImageViews.length = sc.imageViews.length ∧
    s2.m_isInit = true ∧
    s2.m_passes = s.m_passes ∧
    s2.m_extent = sc.extent ∧
    s2.m_mainRenderPass = true ∧
    s2.m_framebuffers = (List.range sc.imageViews.length).map (fun i => i + 1) ∧
    s2.m_maxFrames = s.m_maxFrames ∧
    t = [Event.destroyDepthRes, Event.createDepthRes, Event.createRenderPass, Event.createFbs] ++
        onCreateEvents s.m_passes true ((List.range sc.imageViews.length).map (fun i => i + 1)) := by
  simp only [Renderer.initCore] at h
  split at h
  · exact Except.noConfusion h
  rename_i s3 t3 hd
  split at h
  · exact Except.noConfusion h
  rename_i s4 t4 hp
  split at h
  · exact Except.noConfusion h
  rename_i s5 t5 hf
  split at h
  · exact Except.noConfusion h
  rename_i s6 t6 hy
  split at h
  · exact Except.noConfusion h
  rename_i s7 t7 hc
  obtain ⟨hd1, hd2, hd3⟩ := aux_createDepthResources_ok hd
  subst hd1; subst hd2
  obtain ⟨hp1, hp2⟩ := aux_createMainRenderPass_ok hp
  rw [if_neg (by simpa using hd3)] at hp1
  subst hp1; subst hp2
  obtain ⟨hf1, hf2⟩ := aux_createFramebuffers_ok hf
  subst hf1; subst hf2
  obtain ⟨hy1, hy2⟩ := aux_createSyncObjects_ok hy
  subst hy1; subst hy2
  obtain ⟨hc1, hc2⟩ := aux_createCommandPools_ok hc
  subst hc1; subst hc2
  simp only [Except.ok.injEq, Prod.mk.injEq] at h
  obtain ⟨hs, ht⟩ := h
  subst hs
  subst ht
  obtain ⟨q1, q2, q3, q4, q5, q6, q7, q8, q9, q10, q11⟩ :=
    aux_queryPool_fields phys dev
      { s with
          m_frames := ((resizeFrames s.m_frames s.m_maxFrames).map (fun f =>
            { f with imageAcquiredSemaphore := true
                     renderFinishedSemaphore := true
                     inFlightFence := some true })).map (fun f =>
            { f with commandPool := true, commandBuffer := true })
          m_swapchainImageFormat := sc.imageFormat
          m_extent := sc.extent
          m_depthFormat := findDepthFormat phys.formatProps
          m_depthImages := (List.range sc.imageViews.length).map (fun i => i + 1)
          m_depthMemories := (List.range sc.imageViews.length).map (fun i => i + 1)
          m_depthImageViews := (List.range sc.imageViews.length).map (fun i => i + 1)
          m_mainRenderPass := true
          m_framebuffers := (List.range sc.imageViews.length).map (fun i => i + 1) }
  simp_all

/-- Characterization of a successful `recreateSwapchainDependent` from a
state that owns a main render pass: the fields the claims read, and the
full event trace.  The second `destroyDepthRes` in the trace is the
internal cleanup `createDepthResources` itself performs (line 302). -/
theorem aux_recreate_ok {phys : PhysicalDevice} {sc : SwapChain} {dev : DeviceEnv}
    {s s2 : Renderer} {t : List Event}
    (h : Renderer.recreateSwapchainDependent phys sc dev s = .ok (s2, t))
    (hrp : s.m_mainRenderPass = true) :
    s2.m_depthImages.length = sc.imageViews.length ∧
    s2.m_depthMemories.length = sc.imageViews.length ∧
    s2.m_depthImageViews.length = sc.imageViews.length ∧
    s2.m_frames = s.m_frames ∧
    s2.m_currentFrame = s.m_currentFrame ∧
    s2.m_maxFrames = s.m_maxFrames ∧
    s2.m_isInit = s.m_isInit ∧
    s2.m_passes = s.m_passes ∧
    s2.m_extent = sc.extent ∧
    s2.m_mainRenderPass = true ∧
    s2.m_framebuffers = (List.range sc.imageViews.length).map (fun i => i + 1) ∧
    t = Event.deviceWaitIdle :: onDestroyEvents s.m_passes ++
        [Event.destroyFramebuffers, Event.destroyDepthRes, Event.destroyRenderPass,
         Event.queryFormatExtent, Event.destroyDepthRes, Event.createDepthRes,
         Event.createRenderPass, Event.createFbs] ++
        resizeCreateEvents s.m_passes sc.extent true
          ((List.range sc.imageViews.length).map (fun i => i + 1)) := by
  simp only [Renderer.recreateSwapchainDependent, Renderer.destroyDepthResources, hrp,
    if_true] at h
  split at h
  · exact Except.noConfusion h
  rename_i s5 t5 hd
  split at h
  · exact Except.noConfusion h
  rename_i s6 t6 hp
  split at h
  · exact Except.noConfusion h
  rename_i s7 t7 hf
  obtain ⟨hd1, hd2, hd3⟩ := aux_createDepthResources_ok hd
  subst hd1; subst hd2
  obtain ⟨hp1, hp2⟩ := aux_createMainRenderPass_ok hp
  rw [if_neg (by simpa using hd3)] at hp1
  subst hp1; subst hp2
  obtain ⟨hf1, hf2⟩ := aux_createFramebuffers_ok hf
  subst hf1; subst hf2
  simp only [Except.ok.injEq, Prod.mk.injEq] at h
  obtain ⟨hs, ht⟩ := h
  subst hs
  subst ht
  simp

/-- Bool test of the optimal-tiling depth-stencil-attachment support probe
made by `findSupportedFormat` for a given format. -/
def depthAttachSupported (phys : PhysicalDevice) (f : VkFormat) : Bool :=
  (phys.formatProps f).optimalTilingFeatures &&& VK_FORMAT_FEATURE_DEPTH_STENCIL_ATTACHMENT_BIT
    == VK_FORMAT_FEATURE_DEPTH_STENCIL_ATTACHMENT_BIT

/-- C10: `drawFrame` on an orchestrator that is not initialized (and
`cleanup` always leaves the orchestrator non-initialized, so also after
`cleanup`) returns immediately as a no-op: the state is returned unchanged
in every field and no fence wait, acquire, record, submit or present is
performed (the empty event trace). -/
theorem claim_C10_drawFrame_uninit_noop (phys : PhysicalDevice) (sc : SwapChain)
    (env : DrawEnv) (s : Renderer) :
    (s.m_isInit = false → Renderer.drawFrame phys sc env s = .ok (s, [])) ∧
    (Renderer.cleanup s).1.m_isInit = false := by
  constructor
  · intro h
    simp [Renderer.drawFrame, h]
  · cases hb : s.m_isInit with
    | false => simp [Renderer.cleanup, hb]
    | true =>
      simp only [Renderer.cleanup, hb, Bool.not_true, Bool.false_eq_true, if_false,
        Renderer.destroyTimestampQueryPool, Renderer.destroyDepthResources]
      split <;> simp_all

/-- C10 witness: a freshly constructed renderer is not initialized and its
`drawFrame` is a no-op. -/
theorem claim_C10_witness :
    (Renderer.construct scA 2).m_isInit = false ∧
    Renderer.drawFrame physAll scA envOK (Renderer.construct scA 2) =
      .ok (Renderer.construct scA 2, []) :=
  ⟨rfl, (claim_C10_drawFrame_uninit_noop physAll scA envOK (Renderer.construct scA 2)).1 rfl⟩

/-- C7: `findDepthFormat` selects the first device-supported format of the
ordered preference list D32_SFLOAT, D32_SFLOAT_S8_UINT, D24_UNORM_S8_UINT
(optimal tiling, depth-stencil-attachment feature); `createDepthResources`
throws when none of the three is supported. -/
theorem claim_C7_depth_format_preference (phys : PhysicalDevice) (sc : SwapChain)
    (dev : DeviceEnv) (s : Renderer) :
    (findDepthFormat phys.formatProps =
      if depthAttachSupported phys VkFormat.D32_SFLOAT then VkFormat.D32_SFLOAT
      else if depthAttachSupported phys VkFormat.D32_SFLOAT_S8_UINT then
        VkFormat.D32_SFLOAT_S8_UINT
      else if depthAttachSupported phys VkFormat.D24_UNORM_S8_UINT then
        VkFormat.D24_UNORM_S8_UINT
      else VkFormat.UNDEFINED) ∧
    (depthAttachSupported phys VkFormat.D32_SFLOAT = false →
     depthAttachSupported phys VkFormat.D32_SFLOAT_S8_UINT = false →
     depthAttachSupported phys VkFormat.D24_UNORM_S8_UINT = false →
     Renderer.createDepthResources phys sc dev s =
       .error "Renderer::createDepthResources - failed to find supported depth format") := by
  have hsel : findDepthFormat phys.formatProps =
      if depthAttachSupported phys VkFormat.D32_SFLOAT then VkFormat.D32_SFLOAT
      else if depthAttachSupported phys VkFormat.D32_SFLOAT_S8_UINT then
        VkFormat.D32_SFLOAT_S8_UINT
      else if depthAttachSupported phys VkFormat.D24_UNORM_S8_UINT then
        VkFormat.D24_UNORM_S8_UINT
      else VkFormat.UNDEFINED := by
    simp only [findDepthFormat, findSupportedFormat, depthAttachSupported, beq_iff_eq]
    split_ifs <;> simp_all
  refine ⟨hsel, fun h1 h2 h3 => ?_⟩
  have hfmt : findDepthFormat phys.formatProps = VkFormat.UNDEFINED := by
    rw [hsel, h1, h2, h3]
    rfl
  simp [Renderer.createDepthResources, Renderer.destroyDepthResources, hfmt]

/-- C7 witness: the featureless device supports none of the three formats
and `createDepthResources` fails on it. -/
theorem claim_C7_witness :
    depthAttachSupported physNone VkFormat.D32_SFLOAT = false ∧
    depthAttachSupported physNone VkFormat.D32_SFLOAT_S8_UINT = false ∧
    depthAttachSupported physNone VkFormat.D24_UNORM_S8_UINT = false ∧
    Renderer.createDepthResources physNone scA devOK (Renderer.construct scA 2) =
      .error "Renderer::createDepthResources - failed to find supported depth format" :=
  ⟨rfl, rfl, rfl,
   (claim_C7_depth_format_preference physNone scA devOK (Renderer.construct scA 2)).2 rfl rfl rfl⟩

/-- C3: after every completed (re)build of depth resources — directly via
`createDepthResources`, inside a first `init`, or inside
`recreateSwapchainDependent` — the depth image, memory and view counts all
equal the swapchain image-view count; and `createFramebuffers` throws
whenever the depth-view count differs from the image-view count. -/
theorem claim_C3_depth_count_invariant (phys : PhysicalDevice) (sc : SwapChain)
    (dev : DeviceEnv) (s s2 : Renderer) (t : List Event) :
    (Renderer.createDepthResources phys sc dev s = .ok (s2, t) →
      s2.m_depthImages.length = sc.imageViews.length ∧
      s2.m_depthMemories.length = sc.imageViews.length ∧
      s2.m_depthImageViews.length = sc.imageViews.length) ∧
    (s.m_isInit = false → Renderer.init phys sc dev s = .ok (s2, t) →
      s2.m_depthImages.length = sc.imageViews.length ∧
      s2.m_depthMemories.length = sc.imageViews.length ∧
      s2.m_depthImageViews.length = sc.imageViews.length) ∧
    (s.m_mainRenderPass = true →
      Renderer.recreateSwapchainDependent phys sc dev s = .ok (s2, t) →
      s2.m_depthImages.length = sc.imageViews.length ∧
      s2.m_depthMemories.length = sc.imageViews.length ∧
      s2.m_depthImageViews.length = sc.imageViews.length) ∧
    (s.m_depthImageViews.length ≠ sc.imageViews.length →
      Renderer.createFramebuffers sc dev s =
        .error "Renderer::createFramebuffers - depth resources not initialized or size mismatch") := by
  refine ⟨fun h => ?_, fun hin h => ?_, fun hrp h => ?_, fun hmm => ?_⟩
  · obtain ⟨hs, -, -⟩ := aux_createDepthResources_ok h
    subst hs
    simp
  · rw [Renderer.init, if_neg (by simp [hin])] at h
    obtain ⟨q1, q2, q3, -⟩ := aux_initCore_ok h
    exact ⟨q1, q2, q3⟩
  · obtain ⟨q1, q2, q3, -⟩ := aux_recreate_ok h hrp
    exact ⟨q1, q2, q3⟩
  · simp [Renderer.createFramebuffers, hmm]

/-- The state produced by a direct depth build on the fresh renderer. -/
def rDepth : Renderer :=
  match Renderer.createDepthResources physAll scA devOK (Renderer.construct scA 2) with
  | .ok (x, _) => x
  | .error _ => Renderer.construct scA 2

/-- The trace produced by that depth build. -/
def tDepth : List Event :=
  match Renderer.createDepthResources physAll scA devOK (Renderer.construct scA 2) with
  | .ok (_, y) => y
  | .error _ => []

/-- C3 witness: a successful direct depth build on the three-image
swapchain yields three of each resource, and `createFramebuffers` on the
fresh (depth-less) renderer fails with the mismatch error. -/
theorem claim_C3_witness :
    Renderer.createDepthResources physAll scA devOK (Renderer.construct scA 2) =
      .ok (rDepth, tDepth) ∧
    rDepth.m_depthImages.length = scA.imageViews.length ∧
    rDepth.m_depthMemories.length = scA.imageViews.length ∧
    rDepth.m_depthImageViews.length = scA.imageViews.length ∧
    Renderer.createFramebuffers scA devOK (Renderer.construct scA 2) =
      .error "Renderer::createFramebuffers - depth resources not initialized or size mismatch" := by
  have hok : Renderer.createDepthResources physAll scA devOK (Renderer.construct scA 2) =
      .ok (rDepth, tDepth) := by decide
  have h := (claim_C3_depth_count_invariant physAll scA devOK (Renderer.construct scA 2)
    rDepth tDepth).1 hok
  exact ⟨hok, h.1, h.2.1, h.2.2,
    (claim_C3_depth_count_invariant physAll scA devOK (Renderer.construct scA 2)
      (Renderer.construct scA 2) []).2.2.2 (by decide)⟩

/-- C6: every successful `recreateSwapchainDependent` call from a state
owning a render pass performs, strictly in order: device idle, `onDestroy`
for every registered module, destruction of framebuffers, depth resources
and render pass, re-query of format and extent from the display surface,
rebuild of depth resources then render pass then framebuffers, and only
then per-module `onResize` followed by `onCreate` (carrying the new pass
and the new framebuffer set). -/
theorem claim_C6_recreate_order (phys : PhysicalDevice) (sc : SwapChain)
    (dev : DeviceEnv) (s s2 : Renderer) (t : List Event)
    (hrp : s.m_mainRenderPass = true)
    (h : Renderer.recreateSwapchainDependent phys sc dev s = .ok (s2, t)) :
    t = Event.deviceWaitIdle :: onDestroyEvents s.m_passes ++
        [Event.destroyFramebuffers, Event.destroyDepthRes, Event.destroyRenderPass,
         Event.queryFormatExtent, Event.destroyDepthRes, Event.createDepthRes,
         Event.createRenderPass, Event.createFbs] ++
        resizeCreateEvents s.m_passes sc.extent true
          ((List.range sc.imageViews.length).map (fun i => i + 1)) :=
  (aux_recreate_ok h hrp).2.2.2.2.2.2.2.2.2.2.2

/-- The state produced by a concrete rebuild from the initialized fixture. -/
def rRec : Renderer :=
  match Renderer.recreateSwapchainDependent physAll scA devOK rInit with
  | .ok (x, _) => x
  | .error _ => rInit

/-- The trace produced by that rebuild. -/
def tRec : List Event :=
  match Renderer.recreateSwapchainDependent physAll scA devOK rInit with
  | .ok (_, y) => y
  | .error _ => []

/-- C6 witness: the concrete rebuild from the initialized fixture succeeds
and its trace is exactly the specified sequence. -/
theorem claim_C6_witness :
    rInit.m_mainRenderPass = true ∧
    Renderer.recreateSwapchainDependent physAll scA devOK rInit = .ok (rRec, tRec) ∧
    tRec = Event.deviceWaitIdle :: onDestroyEvents rInit.m_passes ++
        [Event.destroyFramebuffers, Event.destroyDepthRes, Event.destroyRenderPass,
         Event.queryFormatExtent, Event.destroyDepthRes, Event.createDepthRes,
         Event.createRenderPass, Event.createFbs] ++
        resizeCreateEvents rInit.m_passes scA.extent true
          ((List.range scA.imageViews.length).map (fun i => i + 1)) := by
  have h1 : rInit.m_mainRenderPass = true := by decide
  have h2 : Renderer.recreateSwapchainDependent physAll scA devOK rInit = .ok (rRec, tRec) := by
    decide
  exact ⟨h1, h2, claim_C6_recreate_order physAll scA devOK rInit rRec tRec h1 h2⟩

/-- Recognizer of an `onCreate` event addressed to module `m`. -/
def isOnCreateOf (m : Nat) : Event → Bool
  | Event.onCreate m2 _ _ => m2 == m
  | _ => false

theorem aux_countP_onCreateEvents (m : Nat) (ps : List (Option Nat)) (rp : Bool)
    (fbs : List Nat) :
    (onCreateEvents ps rp fbs).countP (isOnCreateOf m) = ps.count (some m) := by
  induction ps with
  | nil => simp [onCreateEvents]
  | cons p rest ih =>
    cases p with
    | none => simp [onCreateEvents, ih, List.count_cons]
    | some m2 =>
      by_cases hm : m2 = m <;>
        simp [onCreateEvents, List.countP_cons, isOnCreateOf, ih, List.count_cons, hm]

/-- C4: registering a non-null module after `init` has completed appends it
and synchronously invokes its `onCreate` exactly once, with the current
main render pass and framebuffer set; registering before `init` appends it
with no notification, and a later successful `init` emits exactly as many
`onCreate` calls for the module as it has registrations (so exactly one
for a module registered once). -/
theorem claim_C4_register_onCreate (phys : PhysicalDevice) (sc : SwapChain)
    (dev : DeviceEnv) (s s2 : Renderer) (t : List Event) (m : Nat) :
    (s.m_isInit = true →
      Renderer.registerPass (some m) s =
        ({ s with m_passes := s.m_passes ++ [some m] },
         [Event.onCreate m s.m_mainRenderPass s.m_framebuffers])) ∧
    (s.m_isInit = false →
      Renderer.registerPass (some m) s =
        ({ s with m_passes := s.m_passes ++ [some m] }, [])) ∧
    (s.m_isInit = false → Renderer.init phys sc dev s = .ok (s2, t) →
      t.countP (isOnCreateOf m) = s.m_passes.count (some m)) := by
  refine ⟨fun hin => ?_, fun hin => ?_, fun hin h => ?_⟩
  · simp [Renderer.registerPass, hin]
  · simp [Renderer.registerPass, hin]
  · rw [Renderer.init, if_neg (by simp [hin])] at h
    obtain ⟨-, -, -, -, -, -, -, -, -, ht⟩ := aux_initCore_ok h
    subst ht
    simp [List.countP_append, aux_countP_onCreateEvents, isOnCreateOf, List.countP_cons]

/-- A fresh renderer with module 7 registered before `init`. -/
def rPre : Renderer := (Renderer.registerPass (some 7) (Renderer.construct scA 2)).1

/-- The state after initializing `rPre`. -/
def rPreInit : Renderer :=
  match Renderer.init physAll scA devOK rPre with
  | .ok (x, _) => x
  | .error _ => rPre

/-- The trace of that initialization. -/
def tPreInit : List Event :=
  match Renderer.init physAll scA devOK rPre with
  | .ok (_, y) => y
  | .error _ => []

/-- C4 witness: late registration of module 9 on the initialized fixture
emits exactly one synchronous `onCreate`; early registration of module 7
emits nothing at registration time and exactly one `onCreate` during
`init`. -/
theorem claim_C4_witness :
    Renderer.registerPass (some 9) rInit =
      ({ rInit with m_passes := rInit.m_passes ++ [some 9] },
       [Event.onCreate 9 rInit.m_mainRenderPass rInit.m_framebuffers]) ∧
    Renderer.registerPass (some 7) (Renderer.construct scA 2) =
      ({ Renderer.construct scA 2 with
           m_passes := (Renderer.construct scA 2).m_passes ++ [some 7] }, []) ∧
    tPreInit.countP (isOnCreateOf 7) = 1 := by
  refine ⟨(claim_C4_register_onCreate physAll scA devOK rInit rInit [] 9).1 (by decide),
          (claim_C4_register_onCreate physAll scA devOK (Renderer.construct scA 2)
            (Renderer.construct scA 2) [] 7).2.1 (by decide), ?_⟩
  have h := (claim_C4_register_onCreate physAll scA devOK rPre rPreInit tPreInit 7).2.2
    (by decide) (by decide)
  rw [h]
  decide

/-- A per-call environment under which a `drawFrame` call is "successful":
the fence wait succeeds and acquisition reports success or suboptimal. -/
def successfulEnv (env : DrawEnv) : Prop :=
  env.fenceWaitResult = VkResult.success ∧
  (env.acquireResult = VkResult.success ∨ env.acquireResult = VkResult.suboptimalKHR)

theorem aux_drawFrame_success_ex (phys : PhysicalDevice) (sc : SwapChain) {env : DrawEnv}
    {s : Renderer} (hin : s.m_isInit = true)
    (hw : env.fenceWaitResult = VkResult.success)
    (ha : env.acquireResult = VkResult.success ∨ env.acquireResult = VkResult.suboptimalKHR) :
    ∃ s2 t, Renderer.drawFrame phys sc env s = .ok (s2, t) := by
  have hod : env.acquireResult ≠ VkResult.errorOutOfDateKHR := by
    rcases ha with h | h <;> simp [h]
  have hns : ¬(env.acquireResult ≠ VkResult.success ∧
      env.acquireResult ≠ VkResult.suboptimalKHR) := by
    rcases ha with h | h <;> simp [h]
  cases hres : Renderer.drawFrame phys sc env s with
  | ok p => obtain ⟨a, b⟩ := p; exact ⟨a, b, rfl⟩
  | error e =>
    exfalso
    simp [Renderer.drawFrame, hin, hw, hod, hns] at hres

theorem aux_drawFrame_success_ok {phys : PhysicalDevice} {sc : SwapChain} {env : DrawEnv}
    {s s2 : Renderer} {t : List Event} (hin : s.m_isInit = true)
    (hw : env.fenceWaitResult = VkResult.success)
    (ha : env.acquireResult = VkResult.success ∨ env.acquireResult = VkResult.suboptimalKHR)
    (h : Renderer.drawFrame phys sc env s = .ok (s2, t)) :
    s2.m_currentFrame = (s.m_currentFrame + 1) % s.m_maxFrames ∧
    s2.m_isInit = true ∧ s2.m_maxFrames = s.m_maxFrames := by
  have hod : env.acquireResult ≠ VkResult.errorOutOfDateKHR := by
    rcases ha with h1 | h1 <;> simp [h1]
  have hns : ¬(env.acquireResult ≠ VkResult.success ∧
      env.acquireResult ≠ VkResult.suboptimalKHR) := by
    rcases ha with h1 | h1 <;> simp [h1]
  simp only [Renderer.drawFrame, hin, hw, hod, hns, Bool.not_true, ne_eq,
    not_true_eq_false, not_false_eq_true, ite_false, ite_true, if_neg, if_pos,
    eq_self_iff_true, and_false, false_and] at h
  split at h <;>
    [skip; (simp only [Except.ok.injEq, Prod.mk.injEq] at h;
            obtain ⟨⟨hs, -⟩, -⟩ := And.intro h trivial;
            subst hs; simp [hin])] <;>
  split at h <;>
    (simp only [Except.ok.injEq, Prod.mk.injEq] at h;
     obtain ⟨hs, -⟩ := h;
     subst hs; simp [hin])

theorem aux_drawFrames_cycle {phys : PhysicalDevice} {sc : SwapChain} :
    ∀ (envs : List DrawEnv) (s : Renderer), s.m_isInit = true →
      s.m_currentFrame < s.m_maxFrames →
      (∀ e ∈ envs, successfulEnv e) →
      ∃ s2 t, Renderer.drawFrames phys sc envs s = .ok (s2, t) ∧
        s2.m_currentFrame = (s.m_currentFrame + envs.length) % s.m_maxFrames ∧
        s2.m_isInit = true ∧ s2.m_maxFrames = s.m_maxFrames := by
  intro envs
  induction envs with
  | nil =>
    intro s hin hcur _
    exact ⟨s, [], rfl, by simp [Nat.mod_eq_of_lt hcur], hin, rfl⟩
  | cons e rest ih =>
    intro s hin hcur hall
    have he : successfulEnv e := hall e (by simp)
    obtain ⟨s1, t1, h1⟩ := aux_drawFrame_success_ex phys sc hin he.1 he.2
    obtain ⟨hc1, hi1, hm1⟩ := aux_drawFrame_success_ok hin he.1 he.2 h1
    have hpos : 0 < s.m_maxFrames := lt_of_le_of_lt (Nat.zero_le _) hcur
    have hcur1 : s1.m_currentFrame < s1.m_maxFrames := by
      rw [hc1, hm1]
      exact Nat.mod_lt _ hpos
    obtain ⟨s2, t2, h2, hc2, hi2, hm2⟩ := ih s1 hi1 hcur1
      (fun x hx => hall x (by simp [hx]))
    refine ⟨s2, t1 ++ t2, ?_, ?_, hi2, by rw [hm2, hm1]⟩
    · simp [Renderer.drawFrames, h1, h2]
    · rw [hc2, hm1, hc1, Nat.mod_add_mod, List.length_cons]
      congr 1
      omega

/-- C2: every successful `drawFrame` call on an initialized orchestrator
with ring size N advances the slot index by exactly one modulo N, and N
consecutive successful calls starting from slot 0 cycle the index back
to 0. -/
theorem claim_C2_slot_ring_cycle (phys : PhysicalDevice) (sc : SwapChain) (N : Nat)
    (s : Renderer) (envs : List DrawEnv)
    (hN : 1 ≤ N) (hin : s.m_isInit = true) (hmf : s.m_maxFrames = N)
    (hcur : s.m_currentFrame = 0) (hlen : envs.length = N)
    (hall : ∀ e ∈ envs, successfulEnv e) :
    (∀ env1 (s1 s2 : Renderer) (t : List Event), s1.m_isInit = true →
      s1.m_maxFrames = N → successfulEnv env1 →
      Renderer.drawFrame phys sc env1 s1 = .ok (s2, t) →
      s2.m_currentFrame = (s1.m_currentFrame + 1) % N) ∧
    ∃ s2 t, Renderer.drawFrames phys sc envs s = .ok (s2, t) ∧ s2.m_currentFrame = 0 := by
  constructor
  · intro env1 s1 s2 t h1 h2 h3 h4
    rw [← h2]
    exact (aux_drawFrame_success_ok h1 h3.1 h3.2 h4).1
  · have hcurlt : s.m_currentFrame < s.m_maxFrames := by rw [hcur, hmf]; omega
    obtain ⟨s2, t, hh, hc, -, -⟩ := aux_drawFrames_cycle envs s hin hcurlt hall
    refine ⟨s2, t, hh, ?_⟩
    rw [hc, hcur, hlen, hmf]
    simp

/-- The state after two successful frames on the ring-size-2 fixture. -/
def r2two : Renderer :=
  match Renderer.drawFrames physAll scA [envOK, envOK] rInit with
  | .ok (x, _) => x
  | .error _ => rInit

/-- C2 witness: two successful calls on the ring-size-2 fixture return the
slot index to 0. -/
theorem claim_C2_witness :
    rInit.m_isInit = true ∧ rInit.m_maxFrames = 2 ∧ rInit.m_currentFrame = 0 ∧
    r2two.m_currentFrame = 0 := by
  obtain ⟨s2, t, hh, hc⟩ := (claim_C2_slot_ring_cycle physAll scA 2 rInit [envOK, envOK]
    (by omega) (by decide) (by decide) (by decide) rfl
    (by intro e he; simp at he; rcases he with rfl | rfl <;> exact ⟨rfl, Or.inl rfl⟩)).2
  have he : r2two = s2 := by simp only [r2two, hh]
  exact ⟨by decide, by decide, by decide, by rw [he]; exact hc⟩

/-- C8: on every `drawFrame` call that reaches the timing-harvest step, the
stored GPU time is replaced by (tick delta) × (nanoseconds per tick) /
10^6 exactly when timestamps are supported, the query pool exists, the
ring size exceeds one, the read-back succeeds, and the end timestamp is
strictly after the start; otherwise it is left unchanged.  When the read
happens it targets the previous slot, query index
((current + N - 1) mod N) × 2.  The stored value starts at zero. -/
theorem claim_C8_gpu_time_harvest (phys : PhysicalDevice) (sc : SwapChain) (env : DrawEnv)
    (s s2 : Renderer) (t : List Event)
    (hin : s.m_isInit = true)
    (hw : env.fenceWaitResult = VkResult.success)
    (ha : env.acquireResult = VkResult.success ∨ env.acquireResult = VkResult.suboptimalKHR)
    (h : Renderer.drawFrame phys sc env s = .ok (s2, t)) :
    s2.m_gpuTimeMs =
      (if s.m_timestampsSupported = true ∧ s.m_timestampQueryPool = true ∧
          1 < s.m_maxFrames ∧ env.queryResult = VkResult.success ∧
          env.timestampStart < env.timestampEnd then
        ((env.timestampEnd - env.timestampStart : Nat) : Rat) * s.m_timestampPeriod / 1000000
      else s.m_gpuTimeMs) ∧
    (s.m_timestampsSupported = true → s.m_timestampQueryPool = true → 1 < s.m_maxFrames →
      Event.queryPoolResults
        (((s.m_currentFrame + s.m_maxFrames - 1) % s.m_maxFrames) * 2) ∈ t) ∧
    (∀ (swapchain : SwapChain) (n : Nat), (Renderer.construct swapchain n).m_gpuTimeMs = 0) := by
  have hod : env.acquireResult ≠ VkResult.errorOutOfDateKHR := by
    rcases ha with h1 | h1 <;> simp [h1]
  have hns : ¬(env.acquireResult ≠ VkResult.success ∧
      env.acquireResult ≠ VkResult.suboptimalKHR) := by
    rcases ha with h1 | h1 <;> simp [h1]
  refine ⟨?_, ?_, fun swapchain n => rfl⟩
  · simp only [Renderer.drawFrame, hin, hw, hod, hns, Bool.not_true, ne_eq,
      not_true_eq_false, not_false_eq_true, ite_false, ite_true, and_false,
      false_and] at h
    split at h
    · rename_i h1
      split at h
      · rename_i h2
        simp only [Except.ok.injEq, Prod.mk.injEq] at h
        obtain ⟨hs, -⟩ := h
        subst hs
        rw [if_pos ⟨h1.1, h1.2.1, h1.2.2, h2.1, h2.2⟩]
      · rename_i h2
        simp only [Except.ok.injEq, Prod.mk.injEq] at h
        obtain ⟨hs, -⟩ := h
        subst hs
        rw [if_neg (by intro hc; exact h2 ⟨hc.2.2.2.1, hc.2.2.2.2⟩)]
    · rename_i h1
      simp only [Except.ok.injEq, Prod.mk.injEq] at h
      obtain ⟨hs, -⟩ := h
      subst hs
      rw [if_neg (by intro hc; exact h1 ⟨hc.1, hc.2.1, hc.2.2.1⟩)]
  · intro ht hp hm
    simp only [Renderer.drawFrame, hin, hw, hod, hns, Bool.not_true, ne_eq,
      not_true_eq_false, not_false_eq_true, ite_false, ite_true, and_false,
      false_and] at h
    split at h
    · split at h <;>
        (simp only [Except.ok.injEq, Prod.mk.injEq] at h;
         obtain ⟨-, htr⟩ := h;
         subst htr;
         simp)
    · rename_i h1
      exact absurd ⟨ht, hp, hm⟩ h1

/-- The per-call environment of the C8 witness: a successful frame whose
previous-slot read-back reports ticks 10 and 30. -/
def env8 : DrawEnv := { recreatedSwapChain := scA, timestampStart := 10, timestampEnd := 30 }

/-- The state after that frame on the initialized fixture. -/
def r8 : Renderer :=
  match Renderer.drawFrame physAll scA env8 rInit with
  | .ok (x, _) => x
  | .error _ => rInit

/-- The trace of that frame. -/
def t8 : List Event :=
  match Renderer.drawFrame physAll scA env8 rInit with
  | .ok (_, y) => y
  | .error _ => []

/-- C8 witness: on the supported ring-size-2 fixture a successful frame
with tick read-back (10, 30) stores (30-10) × period / 10^6 and reads the
previous slot's queries at index 2. -/
theorem claim_C8_witness :
    Renderer.drawFrame physAll scA env8 rInit = .ok (r8, t8) ∧
    r8.m_gpuTimeMs = ((env8.timestampEnd - env8.timestampStart : Nat) : Rat) *
      rInit.m_timestampPeriod / 1000000 ∧
    Event.queryPoolResults 2 ∈ t8 := by
  have hok : Renderer.drawFrame physAll scA env8 rInit = .ok (r8, t8) := rfl
  have h := claim_C8_gpu_time_harvest physAll scA env8 rInit r8 t8 (by decide) rfl
    (Or.inl rfl) hok
  refine ⟨hok, ?_, ?_⟩
  · rw [h.1, if_pos ⟨by decide, by decide, by decide, rfl, by decide⟩]
  · have h2 := h.2.1 (by decide) (by decide) (by decide)
    exact (by decide :
      ((rInit.m_currentFrame + rInit.m_maxFrames - 1) % rInit.m_maxFrames) * 2 = 2) ▸ h2

theorem aux_resetFence_not_in_onDestroy (ps : List (Option Nat)) (i : Nat) :
    Event.resetFence i ∉ onDestroyEvents ps := by
  induction ps with
  | nil => simp [onDestroyEvents]
  | cons p rest ih => cases p <;> simp [onDestroyEvents, ih]

theorem aux_resetFence_not_in_resizeCreate (ps : List (Option Nat)) (e : VkExtent2D)
    (rp : Bool) (fbs : List Nat) (i : Nat) :
    Event.resetFence i ∉ resizeCreateEvents ps e rp fbs := by
  induction ps with
  | nil => simp [resizeCreateEvents]
  | cons p rest ih => cases p <;> simp [resizeCreateEvents, ih]

/-- The fence-wait step of the next `drawFrame` call passes immediately
(does not block) exactly when the current slot's in-flight fence is
already signaled. -/
def fenceWaitPassesImmediately (s : Renderer) : Prop :=
  (s.m_frames.getD s.m_currentFrame emptyFrame).inFlightFence = some true

/-- The current slot after `drawFrame` has stamped its `frameIndex` and a
successful wait has observed its fence signaled. -/
def armedFrame (s : Renderer) : FrameContext :=
  { s.m_frames.getD s.m_currentFrame emptyFrame with
      frameIndex := s.m_currentFrame
      inFlightFence := some true }

/-- The current slot after `drawFrame` has stamped its `frameIndex` only
(the fence wait did not complete successfully). -/
def stampedFrame (s : Renderer) : FrameContext :=
  { s.m_frames.getD s.m_currentFrame emptyFrame with frameIndex := s.m_currentFrame }

/-- The current slot's value after a skipped frame: `frameIndex` stamped,
and the fence observed signaled exactly when the wait succeeded. -/
def skipFrameValue (env : DrawEnv) (s : Renderer) : FrameContext :=
  if env.fenceWaitResult = VkResult.success then armedFrame s else stampedFrame s

/-- C1: when image acquisition reports the surface out-of-date, `drawFrame`
invokes the swapchain's `Recreate` and then `recreateSwapchainDependent`
and returns: the trace is exactly acquire followed by `Recreate` followed
by the rebuild, it contains no fence reset, the slot index does not
advance, the current slot's fence is left signaled, and therefore the
fence-wait step of the very next `drawFrame` call passes immediately. -/
theorem claim_C1_out_of_date_recovery (phys : PhysicalDevice) (sc : SwapChain)
    (env : DrawEnv) (s s2 : Renderer) (t : List Event)
    (hin : s.m_isInit = true)
    (hw : env.fenceWaitResult = VkResult.success)
    (ha : env.acquireResult = VkResult.errorOutOfDateKHR)
    (hrp : s.m_mainRenderPass = true)
    (hcur : s.m_currentFrame < s.m_frames.length)
    (h : Renderer.drawFrame phys sc env s = .ok (s2, t)) :
    (∃ t3, Renderer.recreateSwapchainDependent phys env.recreatedSwapChain env.dev
        { s with m_frames := s.m_frames.set s.m_currentFrame (armedFrame s) } = .ok (s2, t3) ∧
      t = [Event.waitFence s.m_currentFrame, Event.acquireImage,
           Event.swapchainRecreate s.m_extent] ++ t3) ∧
    (∀ i, Event.resetFence i ∉ t) ∧
    s2.m_currentFrame = s.m_currentFrame ∧
    s2.m_frames = s.m_frames.set s.m_currentFrame (armedFrame s) ∧
    fenceWaitPassesImmediately s2 := by
  have hgd : (s.m_frames.set s.m_currentFrame
      ({ s.m_frames.getD s.m_currentFrame emptyFrame with
          frameIndex := s.m_currentFrame })).getD s.m_currentFrame emptyFrame =
      { s.m_frames.getD s.m_currentFrame emptyFrame with frameIndex := s.m_currentFrame } := by
    simp [List.getD_eq_getElem?_getD, List.getElem?_set_self, hcur]
  simp only [Renderer.drawFrame] at h
  rw [if_neg (show ¬¬(s.m_isInit = true) from by simp [hin])] at h
  rw [if_neg (show ¬(env.fenceWaitResult ≠ VkResult.success) from by simp [hw])] at h
  rw [if_pos ha] at h
  rw [hgd, List.set_set] at h
  rw [show ({ s.m_frames.getD s.m_currentFrame emptyFrame with
        frameIndex := s.m_currentFrame
        inFlightFence := some true } : FrameContext) = armedFrame s from rfl] at h
  split at h
  · exact Except.noConfusion h
  rename_i s3 t3 hrec
  simp only [Except.ok.injEq, Prod.mk.injEq] at h
  obtain ⟨hs, ht⟩ := h
  subst hs
  subst ht
  obtain ⟨-, -, -, hfr, hcf, -, -, -, -, -, -, htr⟩ := aux_recreate_ok hrec hrp
  refine ⟨⟨t3, hrec, rfl⟩, ?_, hcf, by rw [hfr], ?_⟩
  · intro i
    simp [htr, aux_resetFence_not_in_onDestroy, aux_resetFence_not_in_resizeCreate]
  · show (s3.m_frames.getD s3.m_currentFrame emptyFrame).inFlightFence = some true
    rw [hfr, hcf]
    simp [List.getD_eq_getElem?_getD, List.getElem?_set_self, hcur, armedFrame]

/-- The per-call environment of the C1 witness: acquisition reports the
surface out-of-date. -/
def env1 : DrawEnv := { acquireResult := VkResult.errorOutOfDateKHR, recreatedSwapChain := scA }

/-- The state after the out-of-date frame on the initialized fixture. -/
def r1 : Renderer :=
  match Renderer.drawFrame physAll scA env1 rInit with
  | .ok (x, _) => x
  | .error _ => rInit

/-- The trace of that frame. -/
def t1ev : List Event :=
  match Renderer.drawFrame physAll scA env1 rInit with
  | .ok (_, y) => y
  | .error _ => []

/-- C1 witness: on the initialized fixture an out-of-date acquisition
rebuilds, never resets a fence, keeps the slot index, and leaves the next
call's fence wait passing immediately. -/
theorem claim_C1_witness :
    Renderer.drawFrame physAll scA env1 rInit = .ok (r1, t1ev) ∧
    r1.m_currentFrame = 0 ∧
    Event.resetFence 0 ∉ t1ev ∧
    Event.resetFence 1 ∉ t1ev ∧
    fenceWaitPassesImmediately r1 := by
  have hok : Renderer.drawFrame physAll scA env1 rInit = .ok (r1, t1ev) := rfl
  have h := claim_C1_out_of_date_recovery physAll scA env1 rInit r1 t1ev (by decide) rfl rfl
    (by decide) (by decide) hok
  exact ⟨hok, h.2.2.1, h.2.1 0, h.2.1 1, h.2.2.2.2⟩

/-- A per-call environment whose fence wait fails. -/
def envWaitFail : DrawEnv :=
  { fenceWaitResult := VkResult.otherError (-4), recreatedSwapChain := scA }

/-- A per-call environment whose acquisition fails with a non-out-of-date,
non-suboptimal error. -/
def envAcqFail : DrawEnv :=
  { acquireResult := VkResult.otherError (-3), recreatedSwapChain := scA }

/-- The state after one successful frame on the initialized fixture
(slot 0 used; the current slot is now 1, whose `frameIndex` is still the
value-initialized 0). -/
def rAfter1 : Renderer :=
  match Renderer.drawFrame physAll scA envOK rInit with
  | .ok (x, _) => x
  | .error _ => rInit

/-- The state after a subsequent fence-wait-failure frame. -/
def rAfterFail : Renderer :=
  match Renderer.drawFrame physAll scA envWaitFail rAfter1 with
  | .ok (x, _) => x
  | .error _ => rAfter1

/-- C5 counterexample: a fence-wait failure at slot 1 skips the frame and
resets nothing, yet the post-call state differs from the pre-call state —
`drawFrame` stamped the slot's `frameIndex` (line 481) before the wait —
so "no orchestrator state mutated" is not literally true. -/
theorem claim_C5_counterexample :
    rAfter1.m_isInit = true ∧
    envWaitFail.fenceWaitResult ≠ VkResult.success ∧
    Renderer.drawFrame physAll scA envWaitFail rAfter1 =
      .ok (rAfterFail, [Event.waitFence rAfter1.m_currentFrame]) ∧
    rAfterFail ≠ rAfter1 := by
  exact ⟨by decide, by decide, rfl, by decide⟩

/-- C5 (amended): on a fence-wait failure, or a non-out-of-date
non-suboptimal acquisition failure, `drawFrame` returns early with the
frame skipped — no fence reset, no recording, no submission, no present,
no slot advance — and the state unchanged except the current slot's
`frameIndex` mirror (stamped to the slot index before the wait) and, after
a successful wait, the slot's fence observed signaled. -/
theorem claim_C5_amended_skip_no_mutation (phys : PhysicalDevice) (sc : SwapChain)
    (env : DrawEnv) (s : Renderer)
    (hin : s.m_isInit = true)
    (hfail : env.fenceWaitResult ≠ VkResult.success ∨
      (env.fenceWaitResult = VkResult.success ∧ env.acquireResult ≠ VkResult.success ∧
       env.acquireResult ≠ VkResult.suboptimalKHR ∧
       env.acquireResult ≠ VkResult.errorOutOfDateKHR)) :
    ∃ t, Renderer.drawFrame phys sc env s =
        .ok ({ s with m_frames := s.m_frames.set s.m_currentFrame (skipFrameValue env s) }, t) ∧
      (∀ i, Event.resetFence i ∉ t) ∧ (∀ i, Event.submit i ∉ t) ∧
      (∀ i, Event.present i ∉ t) ∧ (∀ m, Event.recordPass m ∉ t) := by
  rcases hfail with hWF | ⟨hW, ha1, ha2, ha3⟩
  · refine ⟨[Event.waitFence s.m_currentFrame], ?_, by simp, by simp, by simp, by simp⟩
    simp only [Renderer.drawFrame, skipFrameValue, stampedFrame]
    rw [if_neg (show ¬¬(s.m_isInit = true) from by simp [hin])]
    rw [if_pos hWF]
    rw [if_neg hWF]
  · refine ⟨[Event.waitFence s.m_currentFrame, Event.acquireImage], ?_,
      by simp, by simp, by simp, by simp⟩
    simp only [Renderer.drawFrame, skipFrameValue, stampedFrame]
    rw [if_neg (show ¬¬(s.m_isInit = true) from by simp [hin])]
    rw [if_neg (show ¬(env.fenceWaitResult ≠ VkResult.success) from by simp [hW])]
    rw [if_neg ha3]
    rw [if_pos ⟨ha1, ha2⟩]
    rw [if_pos hW]
    rcases Nat.lt_or_ge s.m_currentFrame s.m_frames.length with hlt | hge
    · rw [show (s.m_frames.set s.m_currentFrame
          ({ s.m_frames.getD s.m_currentFrame emptyFrame with
              frameIndex := s.m_currentFrame })).getD s.m_currentFrame emptyFrame =
          { s.m_frames.getD s.m_currentFrame emptyFrame with
              frameIndex := s.m_currentFrame } from by
        simp [List.getD_eq_getElem?_getD, List.getElem?_set_self, hlt]]
      rw [List.set_set]
      rfl
    · rw [List.set_eq_of_length_le hge, List.set_eq_of_length_le hge,
        List.set_eq_of_length_le hge]

/-- C5 witness (for the amended claim): a fence-wait failure on the
initialized fixture skips the frame, emits only the wait event, and leaves
the state unchanged except the current slot's stamped `frameIndex`. -/
theorem claim_C5_witness :
    rInit.m_isInit = true ∧
    Renderer.drawFrame physAll scA envWaitFail rInit =
      .ok ({ rInit with
               m_frames := rInit.m_frames.set rInit.m_currentFrame
                 (skipFrameValue envWaitFail rInit) },
           [Event.waitFence rInit.m_currentFrame]) ∧
    Event.resetFence 0 ∉ [Event.waitFence rInit.m_currentFrame] := by
  obtain ⟨t, h1, -, -, -, -⟩ := claim_C5_amended_skip_no_mutation physAll scA envWaitFail
    rInit (by decide) (Or.inl (by decide))
  have hr : (.ok ({ rInit with
        m_frames := rInit.m_frames.set rInit.m_currentFrame
          (skipFrameValue envWaitFail rInit) }, t) :
      Except String (Renderer × List Event)) =
      .ok ({ rInit with
               m_frames := rInit.m_frames.set rInit.m_currentFrame
                 (skipFrameValue envWaitFail rInit) },
           [Event.waitFence rInit.m_currentFrame]) := h1.symm.trans (by rfl)
  simp only [Except.ok.injEq, Prod.mk.injEq] at hr
  exact ⟨by decide, hr.2 ▸ h1, by decide⟩

/-- The extent the host supplies to `init(VkExtent2D)` in the C9 scenario:
non-zero and different from the swapchain's 640×480. -/
def ext9 : VkExtent2D := ⟨100, 100⟩

/-- The state after `init(ext9)` on a fresh renderer. -/
def r9post : Renderer :=
  match Renderer.initWithExtent physAll scA devOK ext9 (Renderer.construct scA 2) with
  | .ok (x, _) => x
  | .error _ => Renderer.construct scA 2

/-- The trace of that initialization. -/
def t9 : List Event :=
  match Renderer.initWithExtent physAll scA devOK ext9 (Renderer.construct scA 2) with
  | .ok (_, y) => y
  | .error _ => []

/-- C9: the idempotence half holds (a second `init` is a no-op), but the
supplied non-zero extent is NOT used: `init(VkExtent2D)` assigns it
(lines 90-94, with a comment announcing the override) and then line 101
unconditionally overwrites `m_extent` from the swapchain, so resources are
built with the swapchain extent 640×480, not the supplied 100×100. -/
theorem claim_C9_extent_ignored_bug :
    Renderer.initWithExtent physAll scA devOK ext9 (Renderer.construct scA 2) =
      .ok (r9post, t9) ∧
    0 < ext9.width ∧ 0 < ext9.height ∧
    scA.extent = ⟨640, 480⟩ ∧
    r9post.m_extent = scA.extent ∧
    r9post.m_extent ≠ ext9 ∧
    r9post.m_isInit = true ∧
    Renderer.initWithExtent physAll scA devOK ext9 r9post = .ok (r9post, []) :=
  ⟨rfl, by decide, by decide, rfl, by decide, by decide, by decide, by decide⟩

end Engine
